import Mathlib

/-!
Shallow embedding of the Crowdfund escrow contract (src/unnamed/part_000,
contract Crowdfund, Solidity 0.8) and proofs about it.

Addresses are modelled as Nat (0 is the zero address), amounts and
timestamps as Nat, Solidity mappings as total functions with default 0 /
false, and every state-mutating external function as a total Lean
function returning Except Err Crowdfund.  A revert of the Solidity
transaction corresponds to an .error result: the caller's state is
unchanged (see Crowdfund.exec).  A Solidity division by zero raises a
panic; it is embedded as the explicit error Err.divisionByZero at the
program point where the division occurs.
-/

/-- Errors: one constructor per revert reason of the contract, plus the
arithmetic panic raised by a division by zero and the failure of an
outbound value transfer. -/
inductive Err where
  | invalidBeneficiary
  | fundingCapZero
  | durationZero
  | onlyCreator
  | onlyContributor
  | alreadyFinalized
  | deadlinePassed
  | notEnded
  | contributionZero
  | exceedsFundingCap
  | notFinalized
  | wasSuccessful
  | noContributionToRefund
  | notSuccessful
  | invalidMilestoneId
  | fundsAlreadyReleased
  | voteNotResolved
  | milestoneNotApproved
  | milestoneNotCompleted
  | governanceNotEnabled
  | milestoneAlreadyCompleted
  | votingAlreadyStarted
  | votingConcluded
  | votingPeriodEnded
  | alreadyVoted
  | alreadyResolved
  | votingStillActive
  | insufficientParticipation
  | divisionByZero
  | transferFailed
  | cannotChangeAfterFinalization
  | useReleaseMilestoneFunds
  | fundsAlreadyWithdrawn
  | noFundsToWithdraw
  deriving DecidableEq, Repr

/-- Events emitted by the contract (only the fields the proofs need). -/
inductive Event where
  | contributionReceived (contributor amount : Nat)
  | campaignFinalized (successful : Bool) (totalRaised : Nat)
  | refundClaimed (contributor amount : Nat)
  | milestoneFundsReleased (id amount : Nat)
  | nftRewarded (contributor tokenId : Nat)
  | nftMintingFailed (contributor : Nat) (reason : String)
  | milestoneVoteStarted (id deadline : Nat)
  | voteCast (id voter : Nat) (support : Bool)
  | milestoneVoteResolved (id : Nat) (approved : Bool)
  | fundsWithdrawn (beneficiary amount : Nat)
  deriving DecidableEq, Repr

/-- struct Milestone. -/
structure Milestone where
  description : String
  amount : Nat
  completed : Bool
  fundsReleased : Bool
  deriving DecidableEq, Repr

/-- struct MilestoneInput (constructor argument). -/
structure MilestoneInput where
  description : String
  amount : Nat
  deriving DecidableEq, Repr

/-- struct MilestoneVote; the two per-voter mappings are total functions. -/
structure MilestoneVote where
  votesFor : Nat
  votesAgainst : Nat
  votingDeadline : Nat
  resolved : Bool
  approved : Bool
  hasVoted : Nat → Bool
  voteChoice : Nat → Bool

/-- The zero value of a MilestoneVote mapping entry. -/
def vzero : MilestoneVote :=
  { votesFor := 0, votesAgainst := 0, votingDeadline := 0,
    resolved := false, approved := false,
    hasVoted := fun _ => false, voteChoice := fun _ => false }

/-- The default Milestone used with List.getD; every access is guarded by
an index check, so the default is never observed. -/
def mzero : Milestone :=
  { description := defaultDescription, amount := 0,
    completed := false, fundsReleased := false }
where defaultDescription : String := ""

/-- Contract state of one Crowdfund instance.  balance mirrors
address(this).balance and beneficiaryReceived accumulates the value
transferred out to the beneficiary. -/
structure Crowdfund where
  name : String
  beneficiary : Nat
  creator : Nat
  fundingCap : Nat
  deadline : Nat
  totalFundsRaised : Nat
  finalized : Bool
  successful : Bool
  governanceEnabled : Bool
  nftContract : Nat
  nftRewardsEnabled : Bool
  contributions : Nat → Nat
  contributors : List Nat
  isContributor : Nat → Bool
  milestones : List Milestone
  milestoneVotes : Nat → MilestoneVote
  nftMinted : Nat → Bool
  fundsWithdrawn : Bool
  balance : Nat
  beneficiaryReceived : Nat
  events : List Event

/-- VOTING_PERIOD = 7 days, in seconds. -/
def votingPeriod : Nat := 604800

/-- APPROVAL_THRESHOLD = 60. -/
def approvalThreshold : Nat := 60

/-- MIN_PARTICIPATION = 30. -/
def minParticipation : Nat := 30

/-- The NFT reward hook: mintContribution(contributor, amount,
campaignName, contributorNumber) either returns a token id or fails with
a reason string.  It is an arbitrary external collaborator. -/
def Mint : Type := Nat → Nat → String → Nat → Except String Nat

/-- The Crowdfund constructor (src/unnamed/part_000 lines 362-393).
Note: the milestone inputs are stored without any validation of their
amounts or of their total against the funding cap. -/
def Crowdfund.constructor (nm : String) (beneficiary duration fundingCap creator : Nat)
    (milestoneInputs : List MilestoneInput) (nftContract : Nat)
    (enableGovernance : Bool) (now : Nat) : Except Err Crowdfund :=
  if beneficiary = 0 then .error .invalidBeneficiary
  else if fundingCap = 0 then .error .fundingCapZero
  else if duration = 0 then .error .durationZero
  else .ok
    { name := nm
      beneficiary := beneficiary
      creator := creator
      fundingCap := fundingCap
      deadline := now + duration
      totalFundsRaised := 0
      finalized := false
      successful := false
      governanceEnabled := enableGovernance
      nftContract := nftContract
      nftRewardsEnabled := decide (nftContract ≠ 0)
      contributions := fun _ => 0
      contributors := []
      isContributor := fun _ => false
      milestones := milestoneInputs.map fun m =>
        { description := m.description, amount := m.amount,
          completed := false, fundsReleased := false }
      milestoneVotes := fun _ => vzero
      nftMinted := fun _ => false
      fundsWithdrawn := false
      balance := 0
      beneficiaryReceived := 0
      events := [] }

/-- The state update of a successful contribute() (lines 406-414):
append a first-time sender to the contributor list, then add the value
to the sender's record and the raised total. -/
def Crowdfund.applyContribution (s : Crowdfund) (sender value : Nat) : Crowdfund :=
  let s₁ :=
    if s.contributions sender = 0 then
      { s with
        contributors := s.contributors ++ [sender],
        isContributor := Function.update s.isContributor sender true }
    else s
  { s₁ with
    contributions := Function.update s₁.contributions sender (s₁.contributions sender + value),
    totalFundsRaised := s₁.totalFundsRaised + value,
    balance := s₁.balance + value,
    events := s₁.events ++ [Event.contributionReceived sender value] }

/-- function contribute() (lines 402-415), validation part; sender,
value and now stand for msg.sender, msg.value and block.timestamp. -/
def Crowdfund.contribute (s : Crowdfund) (sender value now : Nat) : Except Err Crowdfund :=
  if s.finalized then .error .alreadyFinalized
  else if s.deadline ≤ now then .error .deadlinePassed
  else if value = 0 then .error .contributionZero
  else if s.fundingCap < s.totalFundsRaised + value then .error .exceedsFundingCap
  else .ok (s.applyContribution sender value)

/-- The loop body of _distributeNFTs (lines 455-485): walk the
contributor list, skip contributors already minted, try the hook for the
rest, record success or emit a failure event, never abort. -/
def distributeNFTsAux (mint : Mint) (nm : String) (contribs : Nat → Nat) :
    List Nat → Nat → (Nat → Bool) → List Event → ((Nat → Bool) × List Event)
  | [], _, minted, evs => (minted, evs)
  | c :: rest, i, minted, evs =>
    if minted c then distributeNFTsAux mint nm contribs rest (i + 1) minted evs
    else
      match mint c (contribs c) nm (i + 1) with
      | .ok tid =>
          distributeNFTsAux mint nm contribs rest (i + 1)
            (Function.update minted c true) (evs ++ [Event.nftRewarded c tid])
      | .error r =>
          distributeNFTsAux mint nm contribs rest (i + 1)
            minted (evs ++ [Event.nftMintingFailed c r])

/-- function _distributeNFTs (lines 455-485). -/
def Crowdfund.distributeNFTs (s : Crowdfund) (mint : Mint) : Crowdfund :=
  if s.nftRewardsEnabled = false ∨ s.nftContract = 0 then s
  else
    let r := distributeNFTsAux mint s.name s.contributions s.contributors 0 s.nftMinted []
    { s with nftMinted := r.1, events := s.events ++ r.2 }

/-- The state update of a successful finalize() (lines 421-424): set
the one-way finalized flag, compute successful, emit the event. -/
def Crowdfund.markFinalized (s : Crowdfund) : Crowdfund :=
  { s with
    finalized := true,
    successful := decide (s.fundingCap ≤ s.totalFundsRaised),
    events := s.events ++
      [Event.campaignFinalized (decide (s.fundingCap ≤ s.totalFundsRaised)) s.totalFundsRaised] }

/-- function finalize() (lines 417-429). -/
def Crowdfund.finalize (s : Crowdfund) (now : Nat) (mint : Mint) : Except Err Crowdfund :=
  if s.finalized then .error .alreadyFinalized
  else if now < s.deadline then .error .notEnded
  else if decide (s.fundingCap ≤ s.totalFundsRaised) && s.nftRewardsEnabled then
    .ok ((s.markFinalized).distributeNFTs mint)
  else .ok s.markFinalized

/-- function claimRefund() (lines 431-442): the record is zeroed before
the outbound transfer. -/
def Crowdfund.claimRefund (s : Crowdfund) (sender : Nat) : Except Err Crowdfund :=
  if s.finalized = false then .error .notFinalized
  else if s.successful then .error .wasSuccessful
  else if s.contributions sender = 0 then .error .noContributionToRefund
  else if s.balance < s.contributions sender then .error .transferFailed
  else .ok { s with
             contributions := Function.update s.contributions sender 0,
             balance := s.balance - s.contributions sender,
             events := s.events ++ [Event.refundClaimed sender (s.contributions sender)] }

/-- The tail of releaseMilestoneFunds: set the released flag, then
transfer the milestone amount to the beneficiary. -/
def Crowdfund.doRelease (s : Crowdfund) (id : Nat) (m : Milestone) : Except Err Crowdfund :=
  if s.balance < m.amount then .error .transferFailed
  else .ok { s with
             milestones := s.milestones.set id { m with fundsReleased := true },
             balance := s.balance - m.amount,
             beneficiaryReceived := s.beneficiaryReceived + m.amount,
             events := s.events ++ [Event.milestoneFundsReleased id m.amount] }

/-- function releaseMilestoneFunds(uint256) (lines 517-536); note the
onlyCreator modifier. -/
def Crowdfund.releaseMilestoneFunds (s : Crowdfund) (caller id : Nat) : Except Err Crowdfund :=
  if caller ≠ s.creator then .error .onlyCreator
  else if (s.finalized && s.successful) = false then .error .notSuccessful
  else if s.milestones.length ≤ id then .error .invalidMilestoneId
  else if (s.milestones.getD id mzero).fundsReleased then .error .fundsAlreadyReleased
  else if s.governanceEnabled then
    if (s.milestoneVotes id).resolved = false then .error .voteNotResolved
    else if (s.milestoneVotes id).approved = false then .error .milestoneNotApproved
    else s.doRelease id (s.milestones.getD id mzero)
  else if (s.milestones.getD id mzero).completed = false then .error .milestoneNotCompleted
  else s.doRelease id (s.milestones.getD id mzero)

/-- function withdrawFunds() (lines 546-558). -/
def Crowdfund.withdrawFunds (s : Crowdfund) (caller : Nat) : Except Err Crowdfund :=
  if caller ≠ s.creator then .error .onlyCreator
  else if s.finalized = false then .error .notFinalized
  else if s.successful = false then .error .notSuccessful
  else if s.milestones.length ≠ 0 then .error .useReleaseMilestoneFunds
  else if s.fundsWithdrawn then .error .fundsAlreadyWithdrawn
  else if s.balance = 0 then .error .noFundsToWithdraw
  else .ok { s with
             fundsWithdrawn := true,
             balance := 0,
             beneficiaryReceived := s.beneficiaryReceived + s.balance,
             events := s.events ++ [Event.fundsWithdrawn s.beneficiary s.balance] }

/-- function completeMilestone(uint256) (lines 566-578): requires
governance to be enabled and only starts a vote; it never sets the
completed flag itself. -/
def Crowdfund.completeMilestone (s : Crowdfund) (caller id now : Nat) : Except Err Crowdfund :=
  if caller ≠ s.creator then .error .onlyCreator
  else if s.governanceEnabled = false then .error .governanceNotEnabled
  else if (s.finalized && s.successful) = false then .error .notSuccessful
  else if s.milestones.length ≤ id then .error .invalidMilestoneId
  else if (s.milestones.getD id mzero).completed then .error .milestoneAlreadyCompleted
  else if (s.milestoneVotes id).votingDeadline ≠ 0 then .error .votingAlreadyStarted
  else
    .ok { s with
          milestoneVotes := Function.update s.milestoneVotes id
            { s.milestoneVotes id with votingDeadline := now + votingPeriod },
          events := s.events ++ [Event.milestoneVoteStarted id (now + votingPeriod)] }

/-- function _resolveVote(uint256) (lines 655-676).  The participation
floor is (contributors * 30) / 100 in Nat division; when the vote total
is zero and the floor is zero, the Solidity code reaches the division
(votesFor * 100) / totalVotes with totalVotes == 0, which panics: that
panic is the Err.divisionByZero branch. -/
def Crowdfund.resolveVote (s : Crowdfund) (id : Nat) : Except Err Crowdfund :=
  if (s.milestoneVotes id).votesFor + (s.milestoneVotes id).votesAgainst <
      s.contributors.length * minParticipation / 100 then .error .insufficientParticipation
  else if (s.milestoneVotes id).votesFor + (s.milestoneVotes id).votesAgainst = 0 then
    .error .divisionByZero
  else
    let v := s.milestoneVotes id
    let app := decide (approvalThreshold ≤ v.votesFor * 100 / (v.votesFor + v.votesAgainst))
    let v₁ : MilestoneVote := { v with resolved := true, approved := app }
    let s₁ := { s with milestoneVotes := Function.update s.milestoneVotes id v₁ }
    let s₂ :=
      if app then
        { s₁ with milestones :=
            s₁.milestones.set id { s₁.milestones.getD id mzero with completed := true } }
      else s₁
    .ok { s₂ with events := s₂.events ++ [Event.milestoneVoteResolved id app] }

/-- function _tryAutoResolve(uint256) (lines 636-650): resolve only when
every contributor has voted. -/
def Crowdfund.tryAutoResolve (s : Crowdfund) (id : Nat) : Except Err Crowdfund :=
  if (s.milestoneVotes id).votesFor + (s.milestoneVotes id).votesAgainst
      = s.contributors.length then s.resolveVote id
  else .ok s

/-- The state update performed by voteOnMilestone before auto-resolution:
record one vote (exactly one, regardless of amount), the voter's
participation and choice, and the VoteCast event. -/
def Crowdfund.castVote (s : Crowdfund) (caller id : Nat) (support : Bool) : Crowdfund :=
  let v := s.milestoneVotes id
  let v₁ := { v with
              votesFor := if support then v.votesFor + 1 else v.votesFor,
              votesAgainst := if support then v.votesAgainst else v.votesAgainst + 1,
              hasVoted := Function.update v.hasVoted caller true,
              voteChoice := Function.update v.voteChoice caller support }
  { s with
    milestoneVotes := Function.update s.milestoneVotes id v₁,
    events := s.events ++ [Event.voteCast id caller support] }

/-- function voteOnMilestone(uint256,bool) (lines 584-606). -/
def Crowdfund.voteOnMilestone (s : Crowdfund) (caller id : Nat) (support : Bool) (now : Nat) :
    Except Err Crowdfund :=
  if s.contributions caller = 0 then .error .onlyContributor
  else if s.governanceEnabled = false then .error .governanceNotEnabled
  else if s.milestones.length ≤ id then .error .invalidMilestoneId
  else if (s.milestones.getD id mzero).completed then .error .milestoneAlreadyCompleted
  else if (s.milestoneVotes id).resolved then .error .votingConcluded
  else if (s.milestoneVotes id).votingDeadline < now then .error .votingPeriodEnded
  else if (s.milestoneVotes id).hasVoted caller then .error .alreadyVoted
  else (s.castVote caller id support).tryAutoResolve id

/-- function resolveMilestoneVote(uint256) (lines 612-630). -/
def Crowdfund.resolveMilestoneVote (s : Crowdfund) (id now : Nat) : Except Err Crowdfund :=
  if s.governanceEnabled = false then .error .governanceNotEnabled
  else if s.milestones.length ≤ id then .error .invalidMilestoneId
  else if (s.milestoneVotes id).resolved then .error .alreadyResolved
  else if now ≤ (s.milestoneVotes id).votingDeadline ∧
      (s.milestoneVotes id).votesFor + (s.milestoneVotes id).votesAgainst
        ≠ s.contributors.length then
    .error .votingStillActive
  else s.resolveVote id

/-- function toggleGovernance() (lines 703-706). -/
def Crowdfund.toggleGovernance (s : Crowdfund) (caller : Nat) : Except Err Crowdfund :=
  if caller ≠ s.creator then .error .onlyCreator
  else if s.finalized then .error .cannotChangeAfterFinalization
  else .ok { s with governanceEnabled := !s.governanceEnabled }

/-- One external transaction against the contract. -/
inductive Act where
  | contribute (sender value now : Nat)
  | finalize (now : Nat) (mint : Mint)
  | claimRefund (sender : Nat)
  | completeMilestone (caller id now : Nat)
  | voteOnMilestone (caller id : Nat) (support : Bool) (now : Nat)
  | resolveMilestoneVote (id now : Nat)
  | releaseMilestoneFunds (caller id : Nat)
  | withdrawFunds (caller : Nat)
  | toggleGovernance (caller : Nat)

/-- Dispatch one transaction. -/
def Crowdfund.stepA (s : Crowdfund) : Act → Except Err Crowdfund
  | .contribute sender value now => s.contribute sender value now
  | .finalize now mint => s.finalize now mint
  | .claimRefund sender => s.claimRefund sender
  | .completeMilestone caller id now => s.completeMilestone caller id now
  | .voteOnMilestone caller id support now => s.voteOnMilestone caller id support now
  | .resolveMilestoneVote id now => s.resolveMilestoneVote id now
  | .releaseMilestoneFunds caller id => s.releaseMilestoneFunds caller id
  | .withdrawFunds caller => s.withdrawFunds caller
  | .toggleGovernance caller => s.toggleGovernance caller

/-- Transaction semantics: a reverted transaction leaves the state
unchanged. -/
def Crowdfund.exec (s : Crowdfund) (a : Act) : Crowdfund :=
  match s.stepA a with
  | .ok s' => s'
  | .error _ => s

/-- Run a list of transactions in order. -/
def Crowdfund.run (s : Crowdfund) : List Act → Crowdfund
  | [] => s
  | a :: rest => (s.exec a).run rest

/-- Whether a transaction is a claimRefund call. -/
def Act.isRefund : Act → Bool
  | .claimRefund _ => true
  | _ => false

/-- Sum of the contribution records over the contract's own contributor
list (every nonzero record of the mapping lives on that list). -/
def sumContributions (s : Crowdfund) : Nat :=
  (s.contributors.map s.contributions).sum

/-! Concrete states used to evaluate the embedded code on specific
inputs. -/

/-- A reward hook that always fails; used only in campaigns whose NFT
rewards are disabled, where it is never invoked. -/
def mintNone : Mint := fun _ _ _ _ => .error msg
where msg : String := "no hook"

/-- Milestone description constants for the concrete scenarios. -/
def d1 : String := "phase one"

/-- Second milestone description constant. -/
def d2 : String := "phase two"

/-- Third milestone description constant. -/
def d3 : String := "phase three"

/-- Fallback campaign used to strip the Except layer off constructor
results in concrete scenarios (never actually selected there). -/
def cdefault : Crowdfund :=
  { name := d1, beneficiary := 1, creator := 1, fundingCap := 1, deadline := 1,
    totalFundsRaised := 0, finalized := false, successful := false,
    governanceEnabled := false, nftContract := 0, nftRewardsEnabled := false,
    contributions := fun _ => 0, contributors := [], isContributor := fun _ => false,
    milestones := [], milestoneVotes := fun _ => vzero, nftMinted := fun _ => false,
    fundsWithdrawn := false, balance := 0, beneficiaryReceived := 0, events := [] }

/-- Scenario of spec test 2: cap 10, milestones [3,4,3], governance
disabled, creator 2, beneficiary 1, constructed at time 0 with a
100-second duration. -/
def c2base : Crowdfund :=
  ((Crowdfund.constructor d1 1 100 10 2 [⟨d1, 3⟩, ⟨d2, 4⟩, ⟨d3, 3⟩] 0 false 0).toOption).getD
    cdefault

/-- The scenario state after contributor 5 funds the full cap and the
campaign is finalized successfully at the deadline. -/
def c2state : Crowdfund := c2base.run [.contribute 5 10 50, .finalize 100 mintNone]

/-- Campaign with one milestone, one contributor (address 4),
governance enabled, finalized successful, and voting never started on
milestone 0 (votingDeadline = 0, no votes). -/
def c10state : Crowdfund :=
  { cdefault with
    creator := 2, fundingCap := 5, deadline := 100, totalFundsRaised := 5,
    finalized := true, successful := true, governanceEnabled := true,
    contributions := Function.update (fun _ => 0) 4 5, contributors := [4],
    isContributor := Function.update (fun _ => false) 4 true,
    milestones := [{ description := d1, amount := 5, completed := false, fundsReleased := false }],
    balance := 5 }

/-- Campaign with one milestone, one contributor (address 9), governance
enabled, finalized successful, voting on milestone 0 started with
deadline 10 and no votes cast. -/
def c5state : Crowdfund :=
  { cdefault with
    creator := 2, fundingCap := 5, deadline := 100, totalFundsRaised := 5,
    finalized := true, successful := true, governanceEnabled := true,
    contributions := Function.update (fun _ => 0) 9 5, contributors := [9],
    isContributor := Function.update (fun _ => false) 9 true,
    milestones := [{ description := d2, amount := 5, completed := false, fundsReleased := false }],
    milestoneVotes := Function.update (fun _ => vzero) 0 { vzero with votingDeadline := 10 },
    balance := 5 }

/-- Campaign with ten contributors, governance enabled, voting on
milestone 0 started with deadline 10 and a single FOR vote by
address 1: participation 1 is below the 30-percent floor of 3. -/
def c5low : Crowdfund :=
  { cdefault with
    creator := 2, fundingCap := 10, deadline := 100, totalFundsRaised := 10,
    finalized := true, successful := true, governanceEnabled := true,
    contributions := fun a => if 1 ≤ a ∧ a ≤ 10 then 1 else 0,
    contributors := [1, 2, 3, 4, 5, 6, 7, 8, 9, 10],
    milestones := [{ description := d3, amount := 5, completed := false, fundsReleased := false }],
    milestoneVotes := Function.update (fun _ => vzero) 0
      { vzero with votesFor := 1, votingDeadline := 10,
                   hasVoted := Function.update (fun _ => false) 1 true,
                   voteChoice := Function.update (fun _ => false) 1 true },
    balance := 10 }

/-- Finalized successful no-governance campaign (creator 2,
beneficiary 1) whose milestone 0 is completed but not yet released. -/
def c4state : Crowdfund :=
  { cdefault with
    creator := 2, beneficiary := 1, fundingCap := 10, deadline := 100, totalFundsRaised := 10,
    finalized := true, successful := true, governanceEnabled := false,
    contributions := Function.update (fun _ => 0) 5 10, contributors := [5],
    milestones := [{ description := d3, amount := 3, completed := true, fundsReleased := false }],
    balance := 10 }

/-- Cap-10 campaign (creator 2, beneficiary 1) that raised only 3 from
contributor 3, then failed at the deadline and refunded contributor 3. -/
def c1base : Crowdfund :=
  ((Crowdfund.constructor d1 1 100 10 2 [] 0 false 0).toOption).getD cdefault

/-- The failed-campaign state after the refund. -/
def c1state : Crowdfund :=
  c1base.run [.contribute 3 3 50, .finalize 100 mintNone, .claimRefund 3]

/-- C1 counterexample: in the reachable state c1state (contribute 3,
finalize a failed campaign, claim the refund) the sum of the
contribution records is 0 while totalFundsRaised is still 3, so the
claimed equality fails after a claimRefund call. -/
theorem C1_cex : sumContributions c1state = 0 ∧ c1state.totalFundsRaised = 3 :=
  ⟨rfl, rfl⟩

/-- C2: with governance disabled in the finalized, successful campaign
c2state (cap 10, milestones [3,4,3]), the creator's completeMilestone(0)
does not mark the milestone completed: it reverts with the
governance-not-enabled error, and releaseMilestoneFunds(0) by the
creator reverts with milestone-not-completed, so the claimed
no-governance release flow is impossible in the code. -/
theorem C2_thm :
    c2state.finalized = true ∧ c2state.successful = true ∧
    c2state.governanceEnabled = false ∧
    c2state.completeMilestone 2 0 100 = .error .governanceNotEnabled ∧
    c2state.releaseMilestoneFunds 2 0 = .error .milestoneNotCompleted :=
  ⟨rfl, rfl, rfl, rfl, rfl⟩

/-- C3: the constructor accepts a milestone list whose total 6 + 5 = 11
exceeds the funding cap 10 and persists it: creation returns a campaign
whose stored milestone amounts sum to 11 with fundingCap 10, instead of
rejecting with an invalid-parameter error. -/
theorem C3_thm :
    (Crowdfund.constructor d1 1 100 10 2 [⟨d1, 6⟩, ⟨d2, 5⟩] 0 false 0).toOption.map
      (fun c => ((c.milestones.map Milestone.amount).sum, c.fundingCap, c.milestones.length))
      = some (11, 10, 2) :=
  rfl

/-- C10: in c10state (one contributor, voting on milestone 0 never
started and no votes cast), resolveMilestoneVote(0) at time 1 passes the
participation check (0 votes ≥ floor(1 * 30 / 100) = 0) and reaches the
approval-percentage division with a zero divisor, failing with the
arithmetic panic rather than a clean precondition error. -/
theorem C10_thm :
    (c10state.milestoneVotes 0).votingDeadline = 0 ∧
    (c10state.milestoneVotes 0).votesFor + (c10state.milestoneVotes 0).votesAgainst = 0 ∧
    c10state.contributors.length = 1 ∧
    c10state.resolveMilestoneVote 0 1 = .error .divisionByZero :=
  ⟨rfl, rfl, rfl, rfl⟩

/-- C5 counterexample: in c5state one contributor exists and no votes
were cast, so participation 0 is below ceil(1 * 30 / 100) = 1; yet
resolveMilestoneVote(0) after the voting deadline fails with the
division-by-zero panic, not with the insufficient-consensus error: the
code's quorum check uses the floor (1 * 30 / 100 = 0), which 0 votes
satisfies. -/
theorem C5_cex :
    (c5state.milestoneVotes 0).votesFor + (c5state.milestoneVotes 0).votesAgainst = 0 ∧
    c5state.contributors.length = 1 ∧
    (0 : Nat) < (c5state.contributors.length * 30 + 99) / 100 ∧
    (c5state.milestoneVotes 0).votingDeadline < 11 ∧
    c5state.resolveMilestoneVote 0 11 = .error .divisionByZero ∧
    Err.divisionByZero ≠ Err.insufficientParticipation := by
  refine ⟨rfl, rfl, by decide, by decide, rfl, by decide⟩

/-- C4 counterexample: in c4state every precondition of a milestone-0
release holds (finalized, successful, completed, not yet released,
funded), but the non-creator caller 7 fails with the only-creator
error: releaseMilestoneFunds is not permissionless. -/
theorem C4_cex :
    (7 ≠ c4state.creator) ∧ c4state.finalized = true ∧ c4state.successful = true ∧
    c4state.governanceEnabled = false ∧
    (c4state.milestones.getD 0 mzero).completed = true ∧
    (c4state.milestones.getD 0 mzero).fundsReleased = false ∧
    (c4state.milestones.getD 0 mzero).amount ≤ c4state.balance ∧
    c4state.releaseMilestoneFunds 7 0 = .error .onlyCreator := by
  refine ⟨by decide, rfl, rfl, rfl, rfl, rfl, by decide, rfl⟩

/-! Helper lemmas about the operations. -/

/-- _distributeNFTs only touches nftMinted and events. -/
lemma distributeNFTs_proj (s : Crowdfund) (mint : Mint) :
    (s.distributeNFTs mint).finalized = s.finalized ∧
    (s.distributeNFTs mint).successful = s.successful ∧
    (s.distributeNFTs mint).contributors = s.contributors ∧
    (s.distributeNFTs mint).contributions = s.contributions ∧
    (s.distributeNFTs mint).totalFundsRaised = s.totalFundsRaised ∧
    (s.distributeNFTs mint).fundingCap = s.fundingCap ∧
    (s.distributeNFTs mint).deadline = s.deadline := by
  unfold Crowdfund.distributeNFTs
  split <;> simp

/-- finalize on an already finalized campaign reverts, leaving the state
unchanged. -/
lemma finalize_already {s : Crowdfund} (h : s.finalized = true) (now : Nat) (mint : Mint) :
    s.finalize now mint = .error .alreadyFinalized ∧ s.exec (.finalize now mint) = s := by
  have he : s.finalize now mint = .error .alreadyFinalized := by
    unfold Crowdfund.finalize; simp [h]
  refine ⟨he, ?_⟩
  simp [Crowdfund.exec, Crowdfund.stepA, he]

/-- C7: finalize succeeds exactly when the campaign is not yet finalized
and now is at or past the deadline (so it succeeds at now = deadline and
fails strictly before); on success it sets finalized and computes
successful as totalFundsRaised >= fundingCap, and every later finalize
call reverts with the already-finalized error, leaving the state (hence
both flags) unchanged. -/
theorem C7_finalize (s : Crowdfund) (now : Nat) (mint : Mint) :
    (s.finalized = false → s.deadline ≤ now →
      ∃ s', s.finalize now mint = .ok s' ∧ s'.finalized = true ∧
        s'.successful = decide (s.fundingCap ≤ s.totalFundsRaised) ∧
        ∀ now2 mint2, s'.finalize now2 mint2 = .error .alreadyFinalized ∧
          s'.exec (.finalize now2 mint2) = s') ∧
    (s.finalized = false → now < s.deadline → s.finalize now mint = .error .notEnded) ∧
    (s.finalized = true → s.finalize now mint = .error .alreadyFinalized) := by
  refine ⟨?_, ?_, ?_⟩
  · intro h1 h2
    have hlt : ¬ now < s.deadline := Nat.not_lt.mpr h2
    unfold Crowdfund.finalize
    simp only [h1, Bool.false_eq_true, if_false, hlt]
    by_cases hb : (decide (s.fundingCap ≤ s.totalFundsRaised) && s.nftRewardsEnabled) = true
    · simp only [hb, if_true]
      refine ⟨_, rfl, ?_, ?_, ?_⟩
      · rw [(distributeNFTs_proj _ mint).1]
        rfl
      · rw [(distributeNFTs_proj _ mint).2.1]
        rfl
      · intro now2 mint2
        exact finalize_already (by rw [(distributeNFTs_proj _ mint).1]; rfl) now2 mint2
    · simp only [hb, if_false]
      refine ⟨_, rfl, rfl, rfl, ?_⟩
      intro now2 mint2
      exact finalize_already rfl now2 mint2
  · intro h1 h2
    unfold Crowdfund.finalize
    simp [h1, h2]
  · intro h1
    unfold Crowdfund.finalize
    simp [h1]

/-- Campaign one second before its deadline, used to witness C7. -/
def c7state : Crowdfund :=
  { cdefault with
    creator := 2, fundingCap := 10, deadline := 100, totalFundsRaised := 4,
    finalized := false, balance := 4 }

/-- C7 witness: at the concrete campaign c7state, finalizing at time 99
(one second before the deadline 100) fails, and finalizing at exactly the
deadline succeeds with successful = false. -/
theorem C7_witness :
    c7state.finalize 99 mintNone = .error .notEnded ∧
    ∃ s', c7state.finalize 100 mintNone = .ok s' ∧ s'.finalized = true ∧
      s'.successful = decide (c7state.fundingCap ≤ c7state.totalFundsRaised) ∧
      ∀ now2 mint2, s'.finalize now2 mint2 = .error .alreadyFinalized ∧
        s'.exec (.finalize now2 mint2) = s' := by
  refine ⟨(C7_finalize c7state 99 mintNone).2.1 rfl (by decide), ?_⟩
  exact (C7_finalize c7state 100 mintNone).1 rfl (by decide)

/-- getD after set at the same in-range index returns the new element. -/
lemma getD_set_self {α : Type} (l : List α) (i : Nat) (x d : α) (h : i < l.length) :
    (l.set i x).getD i d = x := by
  induction l generalizing i with
  | nil => simp at h
  | cons a t ih =>
    cases i with
    | zero => simp
    | succ n => simpa using ih n (by simpa using h)

/-- C4 amended: releaseMilestoneFunds is creator-gated, not
permissionless: every call by an address other than the creator reverts
with the only-creator error, while a creator call under the release
preconditions succeeds and transfers the milestone amount to the fixed
beneficiary. -/
theorem C4_amended (s : Crowdfund) (caller id : Nat) :
    (caller ≠ s.creator → s.releaseMilestoneFunds caller id = .error .onlyCreator) ∧
    (caller = s.creator → s.finalized = true → s.successful = true →
      id < s.milestones.length →
      (s.milestones.getD id mzero).fundsReleased = false →
      (s.governanceEnabled = true →
        (s.milestoneVotes id).resolved = true ∧ (s.milestoneVotes id).approved = true) →
      (s.governanceEnabled = false → (s.milestones.getD id mzero).completed = true) →
      (s.milestones.getD id mzero).amount ≤ s.balance →
      ∃ s', s.releaseMilestoneFunds caller id = .ok s' ∧
        s'.beneficiaryReceived = s.beneficiaryReceived + (s.milestones.getD id mzero).amount) := by
  constructor
  · intro h
    unfold Crowdfund.releaseMilestoneFunds
    rw [if_pos h]
  · intro hcall hf hs hlen hrel hgov hnogov hamt
    unfold Crowdfund.releaseMilestoneFunds
    rw [if_neg (by simp [hcall])]
    rw [if_neg (by simp [hf, hs])]
    rw [if_neg (Nat.not_le.mpr hlen)]
    rw [if_neg (by rw [hrel]; decide)]
    by_cases hg : s.governanceEnabled = true
    · obtain ⟨h1, h2⟩ := hgov hg
      rw [if_pos hg, if_neg (by simp [h1]), if_neg (by simp [h2])]
      unfold Crowdfund.doRelease
      rw [if_neg (Nat.not_lt.mpr hamt)]
      exact ⟨_, rfl, rfl⟩
    · have hgf : s.governanceEnabled = false := by
        cases hgb : s.governanceEnabled
        · rfl
        · exact absurd hgb hg
      rw [if_neg (by simp [hgf]), if_neg (by rw [hnogov hgf]; decide)]
      unfold Crowdfund.doRelease
      rw [if_neg (Nat.not_lt.mpr hamt)]
      exact ⟨_, rfl, rfl⟩

/-- C4 witness: at the concrete campaign c4state the creator's own call
releases milestone 0 and credits the beneficiary with its amount 3. -/
theorem C4_witness :
    ∃ s', c4state.releaseMilestoneFunds 2 0 = .ok s' ∧
      s'.beneficiaryReceived = c4state.beneficiaryReceived + (c4state.milestones.getD 0 mzero).amount := by
  exact (C4_amended c4state 2 0).2 rfl rfl rfl (by decide) rfl
    (by intro h; cases h) (by intro h; exact rfl) (by decide)

/-- C5 amended: the participation requirement of vote resolution is the
floor (not the ceiling) of 30 percent of the contributor count: when the
votes cast are below contributorCount * 30 / 100 (Nat division), the
call reverts with the insufficient-participation error and the state is
unchanged; but when the floor is met with zero votes cast (possible for
1 to 3 contributors, where the floor is 0), the call instead fails with
the division-by-zero panic, not the insufficient-consensus error. -/
theorem C5_amended (s : Crowdfund) (id now : Nat)
    (hg : s.governanceEnabled = true) (hlen : id < s.milestones.length)
    (hres : (s.milestoneVotes id).resolved = false)
    (hgate : (s.milestoneVotes id).votingDeadline < now ∨
      (s.milestoneVotes id).votesFor + (s.milestoneVotes id).votesAgainst
        = s.contributors.length) :
    ((s.milestoneVotes id).votesFor + (s.milestoneVotes id).votesAgainst <
        s.contributors.length * minParticipation / 100 →
      s.resolveMilestoneVote id now = .error .insufficientParticipation ∧
      s.exec (.resolveMilestoneVote id now) = s) ∧
    (s.contributors.length * minParticipation / 100 ≤
        (s.milestoneVotes id).votesFor + (s.milestoneVotes id).votesAgainst →
      (s.milestoneVotes id).votesFor + (s.milestoneVotes id).votesAgainst = 0 →
      s.resolveMilestoneVote id now = .error .divisionByZero) := by
  have hred : s.resolveMilestoneVote id now = s.resolveVote id := by
    unfold Crowdfund.resolveMilestoneVote
    rw [if_neg (by simp [hg]), if_neg (Nat.not_le.mpr hlen), if_neg (by simp [hres])]
    rcases hgate with hd | hall
    · rw [if_neg (by rintro ⟨h1, _⟩; exact absurd h1 (Nat.not_le.mpr hd))]
    · rw [if_neg (by rintro ⟨_, h2⟩; exact h2 hall)]
  constructor
  · intro hlow
    have he : s.resolveMilestoneVote id now = .error .insufficientParticipation := by
      rw [hred]; unfold Crowdfund.resolveVote; rw [if_pos hlow]
    exact ⟨he, by simp [Crowdfund.exec, Crowdfund.stepA, he]⟩
  · intro hge hzero
    rw [hred]; unfold Crowdfund.resolveVote
    rw [if_neg (Nat.not_lt.mpr hge), if_pos hzero]

/-- C5 witness: at c5low (ten contributors, one FOR vote, deadline 10
passed at time 11) participation 1 is below the floor 3, so resolution
fails with the insufficient-participation error and leaves the state
unchanged. -/
theorem C5_witness :
    c5low.resolveMilestoneVote 0 11 = .error .insufficientParticipation ∧
    c5low.exec (.resolveMilestoneVote 0 11) = c5low :=
  (C5_amended c5low 0 11 rfl (by decide) rfl (Or.inl (by decide))).1 (by decide)

/-- A successful claimRefund leaves the lifecycle flags unchanged and
zeroes the caller's record. -/
lemma claimRefund_ok_proj {s s₁ : Crowdfund} {sender : Nat}
    (h : s.claimRefund sender = .ok s₁) :
    s₁.finalized = s.finalized ∧ s₁.successful = s.successful ∧
    s₁.contributions sender = 0 ∧ s.finalized = true ∧ s.successful = false := by
  unfold Crowdfund.claimRefund at h
  split at h
  · exact absurd h (by simp)
  · split at h
    · exact absurd h (by simp)
    · split at h
      · exact absurd h (by simp)
      · split at h
        · exact absurd h (by simp)
        · rename_i hfin hsucc hc hbal
          simp only [Except.ok.injEq] at h
          subst h
          refine ⟨rfl, rfl, by simp [Function.update_same], ?_, ?_⟩
          · simpa using hfin
          · simpa using hsucc

/-- claimRefund reverts with the no-contribution error when the record
is zero on a finalized failed campaign. -/
lemma claimRefund_err {s : Crowdfund} {sender : Nat} (hf : s.finalized = true)
    (hs : s.successful = false) (hc : s.contributions sender = 0) :
    s.claimRefund sender = .error .noContributionToRefund := by
  unfold Crowdfund.claimRefund
  rw [if_neg (by simp [hf]), if_neg (by simp [hs]), if_pos hc]

/-- A successful doRelease preserves everything except the milestone
list, balance, beneficiary credit and events, and sets the released
flag at the index. -/
lemma doRelease_ok_proj {s s₂ : Crowdfund} {id : Nat} {m : Milestone}
    (h : s.doRelease id m = .ok s₂) :
    s₂.creator = s.creator ∧ s₂.finalized = s.finalized ∧ s₂.successful = s.successful ∧
    s₂.milestones = s.milestones.set id { m with fundsReleased := true } := by
  unfold Crowdfund.doRelease at h
  split at h
  · exact absurd h (by simp)
  · simp only [Except.ok.injEq] at h
    subst h
    exact ⟨rfl, rfl, rfl, rfl⟩

/-- releaseMilestoneFunds reverts with the already-released error when
the flag is set and the earlier checks pass. -/
lemma release_err {s : Crowdfund} {caller id : Nat} (hcall : caller = s.creator)
    (hfs : (s.finalized && s.successful) = true) (hlen : id < s.milestones.length)
    (hrel : (s.milestones.getD id mzero).fundsReleased = true) :
    s.releaseMilestoneFunds caller id = .error .fundsAlreadyReleased := by
  unfold Crowdfund.releaseMilestoneFunds
  rw [if_neg (by simp [hcall]), if_neg (by simp [hfs]), if_neg (Nat.not_le.mpr hlen),
    if_pos hrel]

/-- C8: after a successful claimRefund the contributor's record is zero,
so a second claimRefund by the same address reverts (the record was
zeroed by the first call, before the outbound transfer) and changes no
state; after a successful releaseMilestoneFunds(id) the milestone's
fundsReleased flag is set, so a second call for the same id reverts with
the funds-already-released error and changes no state. -/
theorem C8_idempotence (s : Crowdfund) :
    (∀ sender s₁, s.claimRefund sender = .ok s₁ →
      s₁.claimRefund sender = .error .noContributionToRefund ∧
      s₁.exec (.claimRefund sender) = s₁) ∧
    (∀ caller id s₂, s.releaseMilestoneFunds caller id = .ok s₂ →
      s₂.releaseMilestoneFunds caller id = .error .fundsAlreadyReleased ∧
      s₂.exec (.releaseMilestoneFunds caller id) = s₂) := by
  constructor
  · intro sender s₁ h
    obtain ⟨hf1, hs1, hc1, hf0, hs0⟩ := claimRefund_ok_proj h
    have he : s₁.claimRefund sender = .error .noContributionToRefund :=
      claimRefund_err (hf1.trans hf0) (hs1.trans hs0) hc1
    exact ⟨he, by simp [Crowdfund.exec, Crowdfund.stepA, he]⟩
  · intro caller id s₂ h
    unfold Crowdfund.releaseMilestoneFunds at h
    split at h
    · exact absurd h (by simp)
    · split at h
      · exact absurd h (by simp)
      · split at h
        · exact absurd h (by simp)
        · split at h
          · exact absurd h (by simp)
          · rename_i hcall hfs hlen hrel
            have hcall' : caller = s.creator := by
              by_contra hne
              exact hcall hne
            have hfs' : (s.finalized && s.successful) = true := by
              cases hb : (s.finalized && s.successful)
              · exact absurd hb hfs
              · rfl
            have hlen' : id < s.milestones.length := Nat.lt_of_not_le hlen
            have hfin : ∀ hdo : s.doRelease id (s.milestones.getD id mzero) = .ok s₂,
                s₂.releaseMilestoneFunds caller id = .error .fundsAlreadyReleased ∧
                s₂.exec (.releaseMilestoneFunds caller id) = s₂ := by
              intro hdo
              obtain ⟨hcr, hfz, hsz, hms⟩ := doRelease_ok_proj hdo
              have hrel2 : (s₂.milestones.getD id mzero).fundsReleased = true := by
                rw [hms, getD_set_self _ _ _ _ hlen']
              have hlen2 : id < s₂.milestones.length := by
                rw [hms]
                simpa using hlen'
              have he : s₂.releaseMilestoneFunds caller id = .error .fundsAlreadyReleased :=
                release_err (hcall'.trans hcr.symm)
                  (by rw [hfz, hsz]; exact hfs') hlen2 hrel2
              exact ⟨he, by simp [Crowdfund.exec, Crowdfund.stepA, he]⟩
            split at h
            · split at h
              · exact absurd h (by simp)
              · split at h
                · exact absurd h (by simp)
                · exact hfin h
            · split at h
              · exact absurd h (by simp)
              · exact hfin h

/-- Finalized failed campaign where contributor 3 still holds a
refundable record of 4. -/
def c8refState : Crowdfund :=
  { cdefault with
    creator := 2, fundingCap := 10, deadline := 100, totalFundsRaised := 4,
    finalized := true, successful := false,
    contributions := Function.update (fun _ => 0) 3 4, contributors := [3],
    balance := 4 }

/-- Finalized successful no-governance campaign whose milestone 0 is
completed and ready for its first release by the creator 2. -/
def c8relState : Crowdfund :=
  { cdefault with
    creator := 2, beneficiary := 1, fundingCap := 6, deadline := 100, totalFundsRaised := 6,
    finalized := true, successful := true, governanceEnabled := false,
    contributions := Function.update (fun _ => 0) 8 6, contributors := [8],
    milestones := [{ description := d1, amount := 2, completed := true, fundsReleased := false }],
    balance := 6 }

/-- C8 witness: at the concrete campaigns c8refState and c8relState the
first refund and the first release succeed, and the second identical
calls revert with the corresponding already-done errors. -/
theorem C8_witness :
    (c8refState.exec (.claimRefund 3)).claimRefund 3 = .error .noContributionToRefund ∧
    (c8relState.exec (.releaseMilestoneFunds 2 0)).releaseMilestoneFunds 2 0
      = .error .fundsAlreadyReleased := by
  constructor
  · exact ((C8_idempotence c8refState).1 3 (c8refState.exec (.claimRefund 3)) rfl).1
  · exact ((C8_idempotence c8relState).2 2 0
      (c8relState.exec (.releaseMilestoneFunds 2 0)) rfl).1

/-- A successful _resolveVote marks the vote resolved but leaves the
tallies and the contributor list unchanged. -/
lemma resolveVote_ok_proj {s s' : Crowdfund} {id : Nat} (h : s.resolveVote id = .ok s') :
    (s'.milestoneVotes id).votesFor = (s.milestoneVotes id).votesFor ∧
    (s'.milestoneVotes id).votesAgainst = (s.milestoneVotes id).votesAgainst ∧
    (s'.milestoneVotes id).resolved = true ∧
    s'.contributors = s.contributors := by
  unfold Crowdfund.resolveVote at h
  split at h
  · exact absurd h (by simp)
  · split at h
    · exact absurd h (by simp)
    · simp only [Except.ok.injEq] at h
      subst h
      refine ⟨?_, ?_, ?_, ?_⟩ <;>
        (split <;> simp [Function.update_same])

/-- C6: a vote can only become resolved at a moment when every distinct
contributor has voted or strictly after the voting deadline: a
successful voteOnMilestone that leaves the vote resolved has a vote
total equal to the contributor count (so partial turnout leaves
resolved = false), and a successful resolveMilestoneVote at a time not
past the voting deadline likewise requires full turnout. -/
theorem C6_no_premature_resolution (s : Crowdfund) (caller id : Nat) (support : Bool)
    (now : Nat) (s' : Crowdfund) :
    (s.voteOnMilestone caller id support now = .ok s' →
      ((s'.milestoneVotes id).resolved = true →
        (s'.milestoneVotes id).votesFor + (s'.milestoneVotes id).votesAgainst
          = s'.contributors.length) ∧
      ((s'.milestoneVotes id).votesFor + (s'.milestoneVotes id).votesAgainst
          ≠ s'.contributors.length → (s'.milestoneVotes id).resolved = false)) ∧
    (s.resolveMilestoneVote id now = .ok s' →
      now ≤ (s.milestoneVotes id).votingDeadline →
      (s.milestoneVotes id).votesFor + (s.milestoneVotes id).votesAgainst
        = s.contributors.length) := by
  constructor
  · intro h
    unfold Crowdfund.voteOnMilestone at h
    split at h
    · exact absurd h (by simp)
    · split at h
      · exact absurd h (by simp)
      · split at h
        · exact absurd h (by simp)
        · split at h
          · exact absurd h (by simp)
          · split at h
            · exact absurd h (by simp)
            · split at h
              · exact absurd h (by simp)
              · split at h
                · exact absurd h (by simp)
                · rename_i hc hg hlen hcompl hres hddl hvoted
                  unfold Crowdfund.tryAutoResolve at h
                  split at h
                  · rename_i hall
                    obtain ⟨hf, ha, hr, hcon⟩ := resolveVote_ok_proj h
                    have hsum : (s'.milestoneVotes id).votesFor +
                        (s'.milestoneVotes id).votesAgainst = s'.contributors.length := by
                      rw [hf, ha, hcon]
                      exact hall
                    exact ⟨fun _ => hsum, fun hne => absurd hsum hne⟩
                  · simp only [Except.ok.injEq] at h
                    subst h
                    have hres2 : ((Crowdfund.castVote s caller id support).milestoneVotes
                        id).resolved = false := by
                      simp only [Crowdfund.castVote, Function.update_same]
                      simpa using (Bool.not_eq_true _).mp hres
                    exact ⟨fun habs => absurd habs (by simp [hres2]), fun _ => hres2⟩
  · intro h hnow
    unfold Crowdfund.resolveMilestoneVote at h
    split at h
    · exact absurd h (by simp)
    · split at h
      · exact absurd h (by simp)
      · split at h
        · exact absurd h (by simp)
        · split at h
          · exact absurd h (by simp)
          · rename_i hgate
            by_contra hne
            exact hgate ⟨hnow, hne⟩

/-- Campaign with two contributors and voting open on milestone 0, used
to witness C6. -/
def c6state : Crowdfund :=
  { cdefault with
    creator := 2, fundingCap := 10, deadline := 100, totalFundsRaised := 10,
    finalized := true, successful := true, governanceEnabled := true,
    contributions := fun a => if a = 6 ∨ a = 7 then 5 else 0,
    contributors := [6, 7],
    milestones := [{ description := d1, amount := 4, completed := false, fundsReleased := false }],
    milestoneVotes := Function.update (fun _ => vzero) 0 { vzero with votingDeadline := 1000 },
    balance := 10 }

/-- C6 witness: in c6state, after contributor 6 votes FOR while
contributor 7 has not voted (turnout 1 of 2), the vote on milestone 0 is
not resolved. -/
theorem C6_witness :
    ((c6state.exec (.voteOnMilestone 6 0 true 10)).milestoneVotes 0).resolved = false :=
  ((C6_no_premature_resolution c6state 6 0 true 10
    (c6state.exec (.voteOnMilestone 6 0 true 10))).1 rfl).2 (by decide)

/-- Events already accumulated are kept by the rest of the NFT
distribution loop. -/
lemma distributeNFTsAux_mono (mint : Mint) (nm : String) (contribs : Nat → Nat) :
    ∀ (l : List Nat) (i : Nat) (minted : Nat → Bool) (evs : List Event) (e : Event),
      e ∈ evs → e ∈ (distributeNFTsAux mint nm contribs l i minted evs).2 := by
  intro l
  induction l with
  | nil =>
    intro i minted evs e he
    simpa [distributeNFTsAux] using he
  | cons a t ih =>
    intro i minted evs e he
    by_cases hma : minted a
    · simp only [distributeNFTsAux, hma, if_true]
      exact ih _ _ _ _ he
    · cases hm : mint a (contribs a) nm (i + 1) with
      | ok tid =>
        simp only [distributeNFTsAux, hma, Bool.false_eq_true, if_false, hm]
        exact ih _ _ _ _ (List.mem_append_left _ he)
      | error r =>
        simp only [distributeNFTsAux, hma, Bool.false_eq_true, if_false, hm]
        exact ih _ _ _ _ (List.mem_append_left _ he)

/-- Every contributor in the remaining list who has not been minted yet
receives either a success event or a failure event from the NFT
distribution loop: one hook failure never stops the attempts for the
others. -/
lemma distributeNFTsAux_covers (mint : Mint) (nm : String) (contribs : Nat → Nat) :
    ∀ (l : List Nat) (i : Nat) (minted : Nat → Bool) (evs : List Event) (c : Nat),
      c ∈ l → minted c = false →
      (∃ tid, Event.nftRewarded c tid ∈ (distributeNFTsAux mint nm contribs l i minted evs).2) ∨
      (∃ r, Event.nftMintingFailed c r ∈ (distributeNFTsAux mint nm contribs l i minted evs).2) := by
  intro l
  induction l with
  | nil =>
    intro i minted evs c hc
    cases hc
  | cons a t ih =>
    intro i minted evs c hc hmc
    by_cases hca : c = a
    · subst hca
      cases hm : mint c (contribs c) nm (i + 1) with
      | ok tid =>
        simp only [distributeNFTsAux, hmc, Bool.false_eq_true, if_false, hm]
        left
        exact ⟨tid, distributeNFTsAux_mono mint nm contribs t _ _ _ _
          (List.mem_append_right _ (by simp))⟩
      | error r =>
        simp only [distributeNFTsAux, hmc, Bool.false_eq_true, if_false, hm]
        right
        exact ⟨r, distributeNFTsAux_mono mint nm contribs t _ _ _ _
          (List.mem_append_right _ (by simp))⟩
    · have hct : c ∈ t := by
        rcases List.mem_cons.mp hc with h | h
        · exact absurd h hca
        · exact h
      by_cases hma : minted a
      · simp only [distributeNFTsAux, hma, if_true]
        exact ih _ _ _ _ hct hmc
      · cases hm : mint a (contribs a) nm (i + 1) with
        | ok tid =>
          simp only [distributeNFTsAux, hma, Bool.false_eq_true, if_false, hm]
          refine ih _ _ _ _ hct ?_
          rw [Function.update_noteq hca]
          exact hmc
        | error r =>
          simp only [distributeNFTsAux, hma, Bool.false_eq_true, if_false, hm]
          exact ih _ _ _ _ hct hmc

/-- C9: finalize of a due, not yet finalized campaign always succeeds,
whatever the reward hook does: the finalized and successful flags are
set, and when the campaign is successful with NFT rewards enabled every
contributor not already minted is attempted — each one ends with either
a reward event or a caught-failure event, so one contributor's hook
failure neither aborts finalization nor skips the remaining
contributors. -/
theorem C9_mint_best_effort (s : Crowdfund) (now : Nat) (mint : Mint)
    (h1 : s.finalized = false) (h2 : s.deadline ≤ now) :
    ∃ s', s.finalize now mint = .ok s' ∧ s'.finalized = true ∧
      s'.successful = decide (s.fundingCap ≤ s.totalFundsRaised) ∧
      (s'.successful = true → s.nftRewardsEnabled = true → s.nftContract ≠ 0 →
        ∀ c ∈ s.contributors, s.nftMinted c = false →
          (∃ tid, Event.nftRewarded c tid ∈ s'.events) ∨
          (∃ r, Event.nftMintingFailed c r ∈ s'.events)) := by
  have hlt : ¬ now < s.deadline := Nat.not_lt.mpr h2
  unfold Crowdfund.finalize
  simp only [h1, Bool.false_eq_true, if_false, hlt]
  by_cases hb : (decide (s.fundingCap ≤ s.totalFundsRaised) && s.nftRewardsEnabled) = true
  · simp only [hb, if_true]
    refine ⟨_, rfl, ?_, ?_, ?_⟩
    · rw [(distributeNFTs_proj _ mint).1]
      rfl
    · rw [(distributeNFTs_proj _ mint).2.1]
      rfl
    · intro _ hnft hcz c hcmem hcmint
      unfold Crowdfund.distributeNFTs
      rw [if_neg (by simp [Crowdfund.markFinalized, hnft, hcz])]
      simp only [Crowdfund.markFinalized, List.mem_append]
      rcases distributeNFTsAux_covers mint s.name s.contributions s.contributors 0
          s.nftMinted [] c hcmem hcmint with ⟨tid, hmem⟩ | ⟨r, hmem⟩
      · exact Or.inl ⟨tid, Or.inr hmem⟩
      · exact Or.inr ⟨r, Or.inr hmem⟩
  · simp only [hb, if_false]
    refine ⟨_, rfl, rfl, rfl, ?_⟩
    intro hsucc hnft _ _ _ _
    simp only [Crowdfund.markFinalized, decide_eq_true_eq] at hsucc
    exact absurd (by simp [hsucc, hnft]) hb

/-- Campaign with NFT rewards (hook address 77) and two contributors 5
and 6, fully funded and due, used to witness C9. -/
def c9state : Crowdfund :=
  { cdefault with
    creator := 2, beneficiary := 1, fundingCap := 4, deadline := 100, totalFundsRaised := 4,
    finalized := false, nftContract := 77, nftRewardsEnabled := true,
    contributions := fun a => if a = 5 ∨ a = 6 then 2 else 0,
    contributors := [5, 6], balance := 4 }

/-- A hook that reverts for contributor 5 and succeeds for everyone
else: the partial-failure scenario of C9. -/
def mintFlaky : Mint := fun c _ _ _ => if c = 5 then .error msg else .ok (c + 100)
where msg : String := "mint reverted"

/-- C9 witness: finalizing c9state with the partially failing hook still
succeeds, and both contributors (including the one after the failing
one) get an attempt recorded as an event. -/
theorem C9_witness :
    ∃ s', c9state.finalize 100 mintFlaky = .ok s' ∧ s'.finalized = true ∧
      s'.successful = decide (c9state.fundingCap ≤ c9state.totalFundsRaised) ∧
      (s'.successful = true → c9state.nftRewardsEnabled = true → c9state.nftContract ≠ 0 →
        ∀ c ∈ c9state.contributors, c9state.nftMinted c = false →
          (∃ tid, Event.nftRewarded c tid ∈ s'.events) ∨
          (∃ r, Event.nftMintingFailed c r ∈ s'.events)) :=
  C9_mint_best_effort c9state 100 mintFlaky rfl (by decide)

/-! Ledger invariant machinery for C1. -/

/-- Updating the map outside the list leaves the mapped sum unchanged. -/
lemma sum_map_update_not_mem (f : Nat → Nat) (l : List Nat) (a x : Nat) (ha : a ∉ l) :
    (l.map (Function.update f a x)).sum = (l.map f).sum := by
  induction l with
  | nil => rfl
  | cons b t ih =>
    have hba : b ≠ a := by
      rintro rfl
      exact ha (List.mem_cons_self _ _)
    simp only [List.map_cons, List.sum_cons, Function.update_noteq hba]
    rw [ih (fun h => ha (List.mem_cons_of_mem _ h))]

/-- Updating the map at a member of a duplicate-free list replaces its
single occurrence in the mapped sum. -/
lemma sum_map_update_mem (f : Nat → Nat) (l : List Nat) (a x : Nat)
    (hnd : l.Nodup) (ha : a ∈ l) :
    (l.map (Function.update f a x)).sum + f a = (l.map f).sum + x := by
  induction l with
  | nil => cases ha
  | cons b t ih =>
    rcases List.nodup_cons.mp hnd with ⟨hbt, hnt⟩
    rcases List.mem_cons.mp ha with rfl | hat
    · simp only [List.map_cons, List.sum_cons, Function.update_same]
      rw [sum_map_update_not_mem f t a x hbt]
      omega
    · have hba : b ≠ a := by
        rintro rfl
        exact hbt hat
      simp only [List.map_cons, List.sum_cons, Function.update_noteq hba]
      have := ih hnt hat
      omega

/-- Structural well-formedness of the contribution ledger: the
contributor list is duplicate-free, every nonzero record belongs to a
listed contributor, records on the list are nonzero while the campaign
is not finalized (they can be zeroed only by refunds, which require
finalization), and the raised total respects the cap. -/
def LedgerOk (s : Crowdfund) : Prop :=
  s.contributors.Nodup ∧
  (∀ a, a ∉ s.contributors → s.contributions a = 0) ∧
  (s.finalized = false → ∀ a ∈ s.contributors, s.contributions a ≠ 0) ∧
  s.totalFundsRaised ≤ s.fundingCap

/-- Projections of the contribute state update. -/
lemma applyContribution_proj (s : Crowdfund) (sender v : Nat) :
    (s.applyContribution sender v).contributions
      = Function.update s.contributions sender (s.contributions sender + v) ∧
    (s.applyContribution sender v).totalFundsRaised = s.totalFundsRaised + v ∧
    (s.applyContribution sender v).fundingCap = s.fundingCap ∧
    (s.applyContribution sender v).finalized = s.finalized ∧
    (s.contributions sender = 0 →
      (s.applyContribution sender v).contributors = s.contributors ++ [sender]) ∧
    (s.contributions sender ≠ 0 →
      (s.applyContribution sender v).contributors = s.contributors) := by
  unfold Crowdfund.applyContribution
  by_cases hc0 : s.contributions sender = 0 <;> simp [hc0]

/-- A successful contribute adds the value to both the sum of records
and the raised total, preserving ledger well-formedness. -/
lemma contribute_ok {s s' : Crowdfund} {sender v now : Nat}
    (h : s.contribute sender v now = .ok s') (hL : LedgerOk s) :
    LedgerOk s' ∧ sumContributions s' = sumContributions s + v ∧
    s'.totalFundsRaised = s.totalFundsRaised + v ∧ s'.fundingCap = s.fundingCap ∧
    s'.finalized = false := by
  obtain ⟨hnd, hzero, hpos, hcap⟩ := hL
  unfold Crowdfund.contribute at h
  split at h
  · exact absurd h (by simp)
  · split at h
    · exact absurd h (by simp)
    · split at h
      · exact absurd h (by simp)
      · split at h
        · exact absurd h (by simp)
        · rename_i hfin hdl hv hcap2
          have hfin' : s.finalized = false := by simpa using hfin
          have hcap3 : s.totalFundsRaised + v ≤ s.fundingCap := Nat.not_lt.mp hcap2
          simp only [Except.ok.injEq] at h
          subst h
          obtain ⟨hco, htot, hcapP, hfinP, hnew, hold⟩ := applyContribution_proj s sender v
          by_cases hc0 : s.contributions sender = 0
          · have hsnot : sender ∉ s.contributors := fun hmem =>
              (hpos hfin' sender hmem) hc0
            have hcons := hnew hc0
            refine ⟨⟨?_, ?_, ?_, ?_⟩, ?_, ?_, ?_, ?_⟩
            · rw [hcons]
              simpa [List.nodup_append] using ⟨hnd, hsnot⟩
            · intro a ha
              rw [hcons] at ha
              simp only [List.mem_append, List.mem_singleton, not_or] at ha
              rw [hco, Function.update_noteq ha.2]
              exact hzero a ha.1
            · intro _ a ha
              rw [hcons] at ha
              simp only [List.mem_append, List.mem_singleton] at ha
              rw [hco]
              rcases ha with ha | rfl
              · have hane : a ≠ sender := fun hh => hsnot (hh ▸ ha)
                rw [Function.update_noteq hane]
                exact hpos hfin' a ha
              · rw [Function.update_same, hc0]
                simpa using hv
            · rw [htot, hcapP]
              exact hcap3
            · unfold sumContributions
              rw [hcons, hco, hc0]
              simp only [List.map_append, List.sum_append, List.map_singleton,
                List.sum_singleton, Function.update_same,
                sum_map_update_not_mem _ _ _ _ hsnot]
              omega
            · rw [htot]
            · rw [hcapP]
            · rw [hfinP]
              exact hfin'
          · have hsmem : sender ∈ s.contributors := by
              by_contra hnm
              exact hc0 (hzero sender hnm)
            have hcons := hold hc0
            refine ⟨⟨?_, ?_, ?_, ?_⟩, ?_, ?_, ?_, ?_⟩
            · rw [hcons]
              exact hnd
            · intro a ha
              rw [hcons] at ha
              have hane : a ≠ sender := fun hh => ha (hh ▸ hsmem)
              rw [hco, Function.update_noteq hane]
              exact hzero a ha
            · intro _ a ha
              rw [hcons] at ha
              rw [hco]
              by_cases hae : a = sender
              · subst hae
                rw [Function.update_same]
                omega
              · rw [Function.update_noteq hae]
                exact hpos hfin' a ha
            · rw [htot, hcapP]
              exact hcap3
            · unfold sumContributions
              rw [hcons, hco]
              have := sum_map_update_mem s.contributions s.contributors sender
                (s.contributions sender + v) hnd hsmem
              omega
            · rw [htot]
            · rw [hcapP]
            · rw [hfinP]
              exact hfin'

/-- A successful claimRefund removes exactly the refunded record from
the sum, leaves totalFundsRaised untouched, and preserves ledger
well-formedness. -/
lemma claimRefund_ledger {s s' : Crowdfund} {sender : Nat}
    (h : s.claimRefund sender = .ok s') (hL : LedgerOk s) :
    LedgerOk s' ∧ sumContributions s' + s.contributions sender = sumContributions s ∧
    s'.totalFundsRaised = s.totalFundsRaised ∧ s'.fundingCap = s.fundingCap := by
  obtain ⟨hnd, hzero, hpos, hcap⟩ := hL
  unfold Crowdfund.claimRefund at h
  split at h
  · exact absurd h (by simp)
  · split at h
    · exact absurd h (by simp)
    · split at h
      · exact absurd h (by simp)
      · split at h
        · exact absurd h (by simp)
        · rename_i hfin hsucc hc hbal
          have hfin' : s.finalized = true := by
            cases hb : s.finalized
            · exact absurd hb hfin
            · rfl
          have hsmem : sender ∈ s.contributors := by
            by_contra hnm
            exact hc (hzero sender hnm)
          simp only [Except.ok.injEq] at h
          subst h
          refine ⟨⟨hnd, ?_, ?_, hcap⟩, ?_, rfl, rfl⟩
          · intro a ha
            have hane : a ≠ sender := fun hh => ha (hh ▸ hsmem)
            show Function.update s.contributions sender 0 a = 0
            rw [Function.update_noteq hane]
            exact hzero a ha
          · intro habs
            have habs' : s.finalized = false := habs
            rw [hfin'] at habs'
            cases habs'
          · show (s.contributors.map (Function.update s.contributions sender 0)).sum
                + s.contributions sender = (s.contributors.map s.contributions).sum
            have := sum_map_update_mem s.contributions s.contributors sender 0 hnd hsmem
            omega

/-- Relation between states that leaves the four ledger fields
untouched (finalized may only go from false to true). -/
def ledgerSame (s s' : Crowdfund) : Prop :=
  s'.contributors = s.contributors ∧ s'.contributions = s.contributions ∧
  s'.totalFundsRaised = s.totalFundsRaised ∧ s'.fundingCap = s.fundingCap ∧
  (s'.finalized = false → s.finalized = false)

/-- ledgerSame preserves ledger well-formedness and the record sum. -/
lemma ledgerSame_ok {s s' : Crowdfund} (he : ledgerSame s s') (hL : LedgerOk s) :
    LedgerOk s' ∧ sumContributions s' = sumContributions s ∧
    s'.totalFundsRaised = s.totalFundsRaised := by
  obtain ⟨h1, h2, h3, h4, h5⟩ := he
  obtain ⟨hnd, hz, hp, hc⟩ := hL
  refine ⟨⟨?_, ?_, ?_, ?_⟩, ?_, h3⟩
  · rw [h1]
    exact hnd
  · intro a ha
    rw [h2]
    exact hz a (by rwa [h1] at ha)
  · intro hf a ha
    rw [h2]
    exact hp (h5 hf) a (by rwa [h1] at ha)
  · rw [h3, h4]
    exact hc
  · unfold sumContributions
    rw [h1, h2]

/-- ledgerSame composes. -/
lemma ledgerSame_trans {s t u : Crowdfund} (h1 : ledgerSame s t) (h2 : ledgerSame t u) :
    ledgerSame s u := by
  obtain ⟨a1, a2, a3, a4, a5⟩ := h1
  obtain ⟨b1, b2, b3, b4, b5⟩ := h2
  exact ⟨b1.trans a1, b2.trans a2, b3.trans a3, b4.trans a4, fun hf => a5 (b5 hf)⟩

/-- doRelease does not touch the ledger. -/
lemma doRelease_ledgerSame {s s' : Crowdfund} {id : Nat} {m : Milestone}
    (h : s.doRelease id m = .ok s') : ledgerSame s s' := by
  unfold Crowdfund.doRelease at h
  split at h
  · exact absurd h (by simp)
  · simp only [Except.ok.injEq] at h
    subst h
    exact ⟨rfl, rfl, rfl, rfl, fun hf => hf⟩

/-- releaseMilestoneFunds does not touch the ledger. -/
lemma releaseMilestoneFunds_ledgerSame {s s' : Crowdfund} {caller id : Nat}
    (h : s.releaseMilestoneFunds caller id = .ok s') : ledgerSame s s' := by
  unfold Crowdfund.releaseMilestoneFunds at h
  split at h
  · exact absurd h (by simp)
  · split at h
    · exact absurd h (by simp)
    · split at h
      · exact absurd h (by simp)
      · split at h
        · exact absurd h (by simp)
        · split at h
          · split at h
            · exact absurd h (by simp)
            · split at h
              · exact absurd h (by simp)
              · exact doRelease_ledgerSame h
          · split at h
            · exact absurd h (by simp)
            · exact doRelease_ledgerSame h

/-- completeMilestone does not touch the ledger. -/
lemma completeMilestone_ledgerSame {s s' : Crowdfund} {caller id now : Nat}
    (h : s.completeMilestone caller id now = .ok s') : ledgerSame s s' := by
  unfold Crowdfund.completeMilestone at h
  split at h
  · exact absurd h (by simp)
  · split at h
    · exact absurd h (by simp)
    · split at h
      · exact absurd h (by simp)
      · split at h
        · exact absurd h (by simp)
        · split at h
          · exact absurd h (by simp)
          · split at h
            · exact absurd h (by simp)
            · simp only [Except.ok.injEq] at h
              subst h
              exact ⟨rfl, rfl, rfl, rfl, fun hf => hf⟩

/-- _resolveVote does not touch the ledger. -/
lemma resolveVote_ledgerSame {s s' : Crowdfund} {id : Nat}
    (h : s.resolveVote id = .ok s') : ledgerSame s s' := by
  unfold Crowdfund.resolveVote at h
  split at h
  · exact absurd h (by simp)
  · split at h
    · exact absurd h (by simp)
    · simp only [Except.ok.injEq] at h
      subst h
      refine ⟨?_, ?_, ?_, ?_, fun hf => ?_⟩
      · split <;> rfl
      · split <;> rfl
      · split <;> rfl
      · split <;> rfl
      · split at hf <;> exact hf

/-- castVote does not touch the ledger. -/
lemma castVote_ledgerSame (s : Crowdfund) (caller id : Nat) (support : Bool) :
    ledgerSame s (s.castVote caller id support) := by
  unfold Crowdfund.castVote
  exact ⟨rfl, rfl, rfl, rfl, fun hf => hf⟩

/-- _tryAutoResolve does not touch the ledger. -/
lemma tryAutoResolve_ledgerSame {s s' : Crowdfund} {id : Nat}
    (h : s.tryAutoResolve id = .ok s') : ledgerSame s s' := by
  unfold Crowdfund.tryAutoResolve at h
  split at h
  · exact resolveVote_ledgerSame h
  · simp only [Except.ok.injEq] at h
    subst h
    exact ⟨rfl, rfl, rfl, rfl, fun hf => hf⟩

/-- voteOnMilestone does not touch the ledger. -/
lemma voteOnMilestone_ledgerSame {s s' : Crowdfund} {caller id : Nat} {support : Bool}
    {now : Nat} (h : s.voteOnMilestone caller id support now = .ok s') : ledgerSame s s' := by
  unfold Crowdfund.voteOnMilestone at h
  split at h
  · exact absurd h (by simp)
  · split at h
    · exact absurd h (by simp)
    · split at h
      · exact absurd h (by simp)
      · split at h
        · exact absurd h (by simp)
        · split at h
          · exact absurd h (by simp)
          · split at h
            · exact absurd h (by simp)
            · split at h
              · exact absurd h (by simp)
              · exact ledgerSame_trans (castVote_ledgerSame s caller id support)
                  (tryAutoResolve_ledgerSame h)

/-- resolveMilestoneVote does not touch the ledger. -/
lemma resolveMilestoneVote_ledgerSame {s s' : Crowdfund} {id now : Nat}
    (h : s.resolveMilestoneVote id now = .ok s') : ledgerSame s s' := by
  unfold Crowdfund.resolveMilestoneVote at h
  split at h
  · exact absurd h (by simp)
  · split at h
    · exact absurd h (by simp)
    · split at h
      · exact absurd h (by simp)
      · split at h
        · exact absurd h (by simp)
        · exact resolveVote_ledgerSame h

/-- toggleGovernance does not touch the ledger. -/
lemma toggleGovernance_ledgerSame {s s' : Crowdfund} {caller : Nat}
    (h : s.toggleGovernance caller = .ok s') : ledgerSame s s' := by
  unfold Crowdfund.toggleGovernance at h
  split at h
  · exact absurd h (by simp)
  · split at h
    · exact absurd h (by simp)
    · simp only [Except.ok.injEq] at h
      subst h
      exact ⟨rfl, rfl, rfl, rfl, fun hf => hf⟩

/-- withdrawFunds does not touch the ledger. -/
lemma withdrawFunds_ledgerSame {s s' : Crowdfund} {caller : Nat}
    (h : s.withdrawFunds caller = .ok s') : ledgerSame s s' := by
  unfold Crowdfund.withdrawFunds at h
  split at h
  · exact absurd h (by simp)
  · split at h
    · exact absurd h (by simp)
    · split at h
      · exact absurd h (by simp)
      · split at h
        · exact absurd h (by simp)
        · split at h
          · exact absurd h (by simp)
          · split at h
            · exact absurd h (by simp)
            · simp only [Except.ok.injEq] at h
              subst h
              exact ⟨rfl, rfl, rfl, rfl, fun hf => hf⟩

/-- _distributeNFTs does not touch the ledger. -/
lemma distributeNFTs_ledgerSame (s : Crowdfund) (mint : Mint) :
    ledgerSame s (s.distributeNFTs mint) := by
  refine ⟨(distributeNFTs_proj s mint).2.2.1, (distributeNFTs_proj s mint).2.2.2.1,
    (distributeNFTs_proj s mint).2.2.2.2.1, (distributeNFTs_proj s mint).2.2.2.2.2.1,
    fun hf => ?_⟩
  rw [(distributeNFTs_proj s mint).1] at hf
  exact hf

/-- finalize does not touch the ledger either (it flips finalized from
false to true and may mint NFTs, which only records events). -/
lemma finalize_ledgerSame {s s' : Crowdfund} {now : Nat} {mint : Mint}
    (h : s.finalize now mint = .ok s') : ledgerSame s s' := by
  have hmk : ledgerSame s s.markFinalized :=
    ⟨rfl, rfl, rfl, rfl, fun hf => absurd hf (by simp [Crowdfund.markFinalized])⟩
  unfold Crowdfund.finalize at h
  split at h
  · exact absurd h (by simp)
  · split at h
    · exact absurd h (by simp)
    · split at h
      · simp only [Except.ok.injEq] at h
        subst h
        exact ledgerSame_trans hmk (distributeNFTs_ledgerSame _ mint)
      · simp only [Except.ok.injEq] at h
        subst h
        exact hmk

/-- Invariant carried through arbitrary transaction sequences: the
ledger is well-formed and the record sum is bounded by the raised
total. -/
def LedgerLe (s : Crowdfund) : Prop :=
  LedgerOk s ∧ sumContributions s ≤ s.totalFundsRaised

/-- Invariant for refund-free histories: the record sum equals the
raised total exactly. -/
def LedgerEqInv (s : Crowdfund) : Prop :=
  LedgerOk s ∧ sumContributions s = s.totalFundsRaised

/-- ledgerSame transports LedgerLe. -/
lemma ledgerSame_le {s s' : Crowdfund} (he : ledgerSame s s') (h : LedgerLe s) :
    LedgerLe s' := by
  obtain ⟨hok', hsum, htot⟩ := ledgerSame_ok he h.1
  exact ⟨hok', by rw [hsum, htot]; exact h.2⟩

/-- ledgerSame transports LedgerEqInv. -/
lemma ledgerSame_eq {s s' : Crowdfund} (he : ledgerSame s s') (h : LedgerEqInv s) :
    LedgerEqInv s' := by
  obtain ⟨hok', hsum, htot⟩ := ledgerSame_ok he h.1
  exact ⟨hok', by rw [hsum, htot]; exact h.2⟩

/-- Every transaction preserves LedgerLe. -/
lemma exec_ledgerLe (s : Crowdfund) (a : Act) (h : LedgerLe s) : LedgerLe (s.exec a) := by
  unfold Crowdfund.exec
  cases a with
  | contribute sender v now =>
    simp only [Crowdfund.stepA]
    cases hstep : s.contribute sender v now with
    | error e => exact h
    | ok s' =>
      obtain ⟨hok', hsum, htot, _, _⟩ := contribute_ok hstep h.1
      refine ⟨hok', ?_⟩
      rw [hsum, htot]
      exact Nat.add_le_add_right h.2 v
  | finalize now mint =>
    simp only [Crowdfund.stepA]
    cases hstep : s.finalize now mint with
    | error e => exact h
    | ok s' => exact ledgerSame_le (finalize_ledgerSame hstep) h
  | claimRefund sender =>
    simp only [Crowdfund.stepA]
    cases hstep : s.claimRefund sender with
    | error e => exact h
    | ok s' =>
      show LedgerLe s'
      obtain ⟨hok', hsum, htot, _⟩ := claimRefund_ledger hstep h.1
      refine ⟨hok', ?_⟩
      rw [htot]
      have := h.2
      omega
  | completeMilestone caller id now =>
    simp only [Crowdfund.stepA]
    cases hstep : s.completeMilestone caller id now with
    | error e => exact h
    | ok s' => exact ledgerSame_le (completeMilestone_ledgerSame hstep) h
  | voteOnMilestone caller id support now =>
    simp only [Crowdfund.stepA]
    cases hstep : s.voteOnMilestone caller id support now with
    | error e => exact h
    | ok s' => exact ledgerSame_le (voteOnMilestone_ledgerSame hstep) h
  | resolveMilestoneVote id now =>
    simp only [Crowdfund.stepA]
    cases hstep : s.resolveMilestoneVote id now with
    | error e => exact h
    | ok s' => exact ledgerSame_le (resolveMilestoneVote_ledgerSame hstep) h
  | releaseMilestoneFunds caller id =>
    simp only [Crowdfund.stepA]
    cases hstep : s.releaseMilestoneFunds caller id with
    | error e => exact h
    | ok s' => exact ledgerSame_le (releaseMilestoneFunds_ledgerSame hstep) h
  | withdrawFunds caller =>
    simp only [Crowdfund.stepA]
    cases hstep : s.withdrawFunds caller with
    | error e => exact h
    | ok s' => exact ledgerSame_le (withdrawFunds_ledgerSame hstep) h
  | toggleGovernance caller =>
    simp only [Crowdfund.stepA]
    cases hstep : s.toggleGovernance caller with
    | error e => exact h
    | ok s' => exact ledgerSame_le (toggleGovernance_ledgerSame hstep) h

/-- Every transaction other than claimRefund preserves LedgerEqInv. -/
lemma exec_ledgerEq (s : Crowdfund) (a : Act) (hnr : a.isRefund = false)
    (h : LedgerEqInv s) : LedgerEqInv (s.exec a) := by
  unfold Crowdfund.exec
  cases a with
  | contribute sender v now =>
    simp only [Crowdfund.stepA]
    cases hstep : s.contribute sender v now with
    | error e => exact h
    | ok s' =>
      obtain ⟨hok', hsum, htot, _, _⟩ := contribute_ok hstep h.1
      refine ⟨hok', ?_⟩
      rw [hsum, htot, h.2]
  | finalize now mint =>
    simp only [Crowdfund.stepA]
    cases hstep : s.finalize now mint with
    | error e => exact h
    | ok s' => exact ledgerSame_eq (finalize_ledgerSame hstep) h
  | claimRefund sender => cases hnr
  | completeMilestone caller id now =>
    simp only [Crowdfund.stepA]
    cases hstep : s.completeMilestone caller id now with
    | error e => exact h
    | ok s' => exact ledgerSame_eq (completeMilestone_ledgerSame hstep) h
  | voteOnMilestone caller id support now =>
    simp only [Crowdfund.stepA]
    cases hstep : s.voteOnMilestone caller id support now with
    | error e => exact h
    | ok s' => exact ledgerSame_eq (voteOnMilestone_ledgerSame hstep) h
  | resolveMilestoneVote id now =>
    simp only [Crowdfund.stepA]
    cases hstep : s.resolveMilestoneVote id now with
    | error e => exact h
    | ok s' => exact ledgerSame_eq (resolveMilestoneVote_ledgerSame hstep) h
  | releaseMilestoneFunds caller id =>
    simp only [Crowdfund.stepA]
    cases hstep : s.releaseMilestoneFunds caller id with
    | error e => exact h
    | ok s' => exact ledgerSame_eq (releaseMilestoneFunds_ledgerSame hstep) h
  | withdrawFunds caller =>
    simp only [Crowdfund.stepA]
    cases hstep : s.withdrawFunds caller with
    | error e => exact h
    | ok s' => exact ledgerSame_eq (withdrawFunds_ledgerSame hstep) h
  | toggleGovernance caller =>
    simp only [Crowdfund.stepA]
    cases hstep : s.toggleGovernance caller with
    | error e => exact h
    | ok s' => exact ledgerSame_eq (toggleGovernance_ledgerSame hstep) h

/-- LedgerLe holds along every transaction sequence. -/
lemma run_ledgerLe (acts : List Act) : ∀ s : Crowdfund, LedgerLe s → LedgerLe (s.run acts) := by
  induction acts with
  | nil => exact fun s h => h
  | cons a t ih => exact fun s h => ih _ (exec_ledgerLe s a h)

/-- LedgerEqInv holds along every refund-free transaction sequence. -/
lemma run_ledgerEq (acts : List Act) :
    ∀ s : Crowdfund, (∀ a ∈ acts, a.isRefund = false) → LedgerEqInv s →
      LedgerEqInv (s.run acts) := by
  induction acts with
  | nil => exact fun s _ h => h
  | cons a t ih =>
    intro s hnr h
    exact ih _ (fun b hb => hnr b (List.mem_cons_of_mem _ hb))
      (exec_ledgerEq s a (hnr a (List.mem_cons_self _ _)) h)

/-- A freshly constructed campaign has an exact, well-formed ledger. -/
lemma constructor_ledgerEq {nm : String} {ben dur cap cr : Nat} {ms : List MilestoneInput}
    {nftC : Nat} {gov : Bool} {t0 : Nat} {c : Crowdfund}
    (hc : Crowdfund.constructor nm ben dur cap cr ms nftC gov t0 = .ok c) :
    LedgerEqInv c := by
  unfold Crowdfund.constructor at hc
  split at hc
  · exact absurd hc (by simp)
  · split at hc
    · exact absurd hc (by simp)
    · split at hc
      · exact absurd hc (by simp)
      · simp only [Except.ok.injEq] at hc
        subst hc
        exact ⟨⟨List.nodup_nil, fun a _ => rfl,
          fun _ a ha => absurd ha (List.not_mem_nil a), Nat.zero_le _⟩, rfl⟩

/-- C1 amended: for every campaign produced by the constructor and
every sequence of transactions, the sum of the contribution records is
at most totalFundsRaised, and totalFundsRaised is at most fundingCap;
the claimed equality sum = totalFundsRaised holds for every sequence
that contains no claimRefund call, but a refund breaks it permanently,
because claimRefund zeroes the record without decreasing the
lifetime total totalFundsRaised. -/
theorem C1_amended (nm : String) (ben dur cap cr : Nat) (ms : List MilestoneInput)
    (nftC : Nat) (gov : Bool) (t0 : Nat) (c : Crowdfund)
    (hc : Crowdfund.constructor nm ben dur cap cr ms nftC gov t0 = .ok c) (acts : List Act) :
    sumContributions (c.run acts) ≤ (c.run acts).totalFundsRaised ∧
    (c.run acts).totalFundsRaised ≤ (c.run acts).fundingCap ∧
    ((∀ a ∈ acts, a.isRefund = false) →
      sumContributions (c.run acts) = (c.run acts).totalFundsRaised) := by
  have h0 := constructor_ledgerEq hc
  have hle : LedgerLe (c.run acts) := run_ledgerLe acts c ⟨h0.1, Nat.le_of_eq h0.2⟩
  exact ⟨hle.2, hle.1.2.2.2, fun hnr => (run_ledgerEq acts c hnr h0).2⟩

/-- C1 witness: on the concrete cap-10 campaign c1base, after the
refund-free history consisting of one contribution of 3, the invariant
holds with equality: sum = totalFundsRaised = 3 ≤ cap = 10. -/
theorem C1_witness :
    sumContributions (c1base.run [.contribute 3 3 50])
        ≤ (c1base.run [.contribute 3 3 50]).totalFundsRaised ∧
    (c1base.run [.contribute 3 3 50]).totalFundsRaised
        ≤ (c1base.run [.contribute 3 3 50]).fundingCap ∧
    ((∀ a ∈ ([.contribute 3 3 50] : List Act), a.isRefund = false) →
      sumContributions (c1base.run [.contribute 3 3 50])
        = (c1base.run [.contribute 3 3 50]).totalFundsRaised) :=
  C1_amended d1 1 100 10 2 [] 0 false 0 c1base rfl [.contribute 3 3 50]
